import Mathlib

/-!
Shallow embedding of the ambulance proximity-matching and dispatch-request
subsystem of the HealHub hospital backend
(app/routes/ambulance.py, app/routes/patient.py, app/models/medical_models.py).

The store (Supabase tables `ambulances`, `patients`, `notifications`) is
modelled as explicit lists; each `SupabaseClient.execute_query` call becomes a
pure function on a `DB` value.  Timestamps are abstract ticks (`Nat`),
coordinates are rationals (`ℚ`).  The haversine distance is a real-valued
formula in the source; the ranking/filtering pipeline is parametrised over the
distance function so that order/membership properties can be settled exactly.
-/

namespace HealHub

/- The Batteries rational arithmetic is marked irreducible by default; make
it unfold locally so that concrete runs of the pipeline evaluate. -/
attribute [local semireducible] Rat.mul Rat.add Rat.sub Rat.inv Rat.ofScientific

/-- Row of the `ambulances` table (see register_ambulance for the columns). -/
structure Ambulance where
  ambulance_id : Nat
  user_id : String
  ambulance_number : String
  driver_name : String
  driver_phone : String
  current_latitude : Option ℚ
  current_longitude : Option ℚ
  is_available : Bool
  last_updated : Nat
deriving DecidableEq

/-- Row of the `notifications` table.  The column named `type` in the source
is rendered as the field `type` here as well. -/
structure Notification where
  notification_id : Nat
  user_id : String
  title : String
  message : String
  type : String
  is_read : Bool
  created_at : Nat
deriving DecidableEq

/-- Row of the `patients` table (the fields the dispatch code reads). -/
structure Patient where
  patient_id : Nat
  user_id : String
  full_name : String
  phone : String
deriving DecidableEq

/-- The durable store: the three tables the dispatch subsystem touches, plus
the serial counter that yields the id of the next inserted notification. -/
structure DB where
  ambulances : List Ambulance
  patients : List Patient
  notifications : List Notification
  next_notification_id : Nat
deriving DecidableEq

/-- The JSON-ish responses the Flask handlers return: HTTP status code plus
the `success`/`message` payload fields. -/
structure HttpResponse where
  status : Nat
  success : Bool
  message : String
deriving DecidableEq

/-- Result of running a handler: the store afterwards and the response. -/
structure StepResult where
  db : DB
  response : HttpResponse
deriving DecidableEq

/-- Helper `get_ambulance_id` (ambulance.py): first `ambulances` row with the given
`user_id`, if any. -/
def get_ambulance_id (db : DB) (uid : String) : Option Nat :=
  match db.ambulances.filter (fun a => a.user_id == uid) with
  | [] => none
  | a :: _ => some a.ambulance_id

/-- Helper `get_patient_id` (patient.py): first `patients` row with the given
`user_id`, if any. -/
def get_patient_id (db : DB) (uid : String) : Option Nat :=
  match db.patients.filter (fun p => p.user_id == uid) with
  | [] => none
  | p :: _ => some p.patient_id

/-- The filter used by accept/reject on the `notifications` table:
`filter_notification_id=nid, filter_user_id=uid, filter_type='Ambulance'`. -/
def notifKey (uid : String) (nid : Nat) (n : Notification) : Bool :=
  n.notification_id == nid && n.user_id == uid && n.type == "Ambulance"

/-- The notification select issued by accept/reject. -/
def selectRequestNotifs (db : DB) (uid : String) (nid : Nat) : List Notification :=
  db.notifications.filter (notifKey uid nid)

/-- The notification delete issued by accept/reject (same three filters). -/
def deleteRequestNotif (db : DB) (uid : String) (nid : Nat) : DB :=
  { db with notifications := db.notifications.filter (fun n => !(notifKey uid nid n)) }

/-- The write `update ambulances set is_available=false, last_updated=now where
ambulance_id = aid` (the write accept issues). -/
def setUnavailable (db : DB) (aid : Nat) (now : Nat) : DB :=
  { db with ambulances := db.ambulances.map (fun a =>
      if a.ambulance_id == aid then { a with is_available := false, last_updated := now } else a) }

/-- Insert one row into `notifications` with type 'Ambulance' (the only kind
of insert the dispatch code performs); the row gets the next serial id. -/
def insertNotif (db : DB) (uid title msg : String) (now : Nat) : DB :=
  { db with
      notifications := db.notifications ++
        [⟨db.next_notification_id, uid, title, msg, "Ambulance", false, now⟩],
      next_notification_id := db.next_notification_id + 1 }

/-- Boolean test for a pattern occurring at the head of a character list. -/
def headMatch : List Char → List Char → Bool
  | [], _ => true
  | _ :: _, [] => false
  | p :: ps, c :: cs => p == c && headMatch ps cs

/-- Longest run of non-whitespace characters at the head of the list
(the `[^\s]+` group of the scraping regex). -/
def takeToken : List Char → List Char
  | [] => []
  | c :: cs => if c.isWhitespace then [] else c :: takeToken cs

/-- Scan for the first position where `pat` occurs followed by at least one
non-whitespace character, and return that run; mirrors how
`re.search(key + "=([^\s]+)", message)` keeps scanning past a position where
the literal occurs but the group would be empty. -/
def findMeta (pat : List Char) : List Char → Option (List Char)
  | [] => none
  | c :: cs =>
      if headMatch pat (c :: cs) then
        let tok := takeToken ((c :: cs).drop pat.length)
        if tok.isEmpty then findMeta pat cs else some tok
      else findMeta pat cs

/-- Helper `extract_meta` (accept_request / reject_request): recover a
`key=value` token embedded in a free-text notification message. -/
def extract_meta (key message : String) : Option String :=
  (findMeta (key.toList ++ [ '=' ]) message.toList).map List.asString

/-- Which of the fire-and-forget storage calls inside accept succeed.  The
source ignores the results of the delete, the availability update and the
patient-notification insert, so a failure leaves the store untouched but does
not change the control flow. -/
structure Faults where
  deleteOk : Bool
  updateOk : Bool
  insertOk : Bool
deriving DecidableEq

def noFaults : Faults := ⟨true, true, true⟩

/-- The patient-notification block at the end of `accept_request`: scrape the
meta tokens out of the stored message; if a patient user id is present, read
the ambulance row back and insert an acceptance notification carrying the
driver's name/phone and (when both coordinates were scraped) a directions
link.  `insertOk = false` models the ignored insert failing. -/
def acceptPatientNotify (insertOk : Bool) (db : DB) (aid : Nat) (msg : String) (now : Nat) : DB :=
  match extract_meta "meta_patient_user_id" msg with
  | none => db
  | some pid =>
      if insertOk then
        let amb := (db.ambulances.filter (fun a => a.ambulance_id == aid)).head?
        let directions :=
          match extract_meta "meta_patient_lat" msg, extract_meta "meta_patient_lng" msg with
          | some la, some lo =>
              "Directions: https://www.google.com/maps/dir/?api=1&destination=" ++ la ++ "," ++ lo
          | _, _ => ""
        let body :=
          ("Ambulance " ++ (match amb with
              | some a => a.ambulance_number
              | none => toString aid) ++
            " accepted your request and is on the way. Driver: " ++
            (match amb with | some a => a.driver_name | none => "") ++ " " ++
            (match amb with | some a => a.driver_phone | none => "") ++ ". " ++
            directions).trim
        insertNotif db pid "Ambulance Request Accepted" body now
      else db

/-- Handler `accept_request` (ambulance.py, /requests/(id)/accept): resolve the
caller's ambulance row; select the notification (404 when absent); delete it;
mark the ambulance unavailable; then best-effort notify the patient.  The
delete/update/insert results are ignored in the source, hence the `Faults`
parameter. -/
def acceptRequestF (f : Faults) (db : DB) (uid : String) (nid : Nat) (now : Nat) : StepResult :=
  match get_ambulance_id db uid with
  | none => ⟨db, ⟨404, false, "Ambulance profile not found"⟩⟩
  | some aid =>
      match selectRequestNotifs db uid nid with
      | [] => ⟨db, ⟨404, false, "Request not found"⟩⟩
      | notification :: _ =>
          let db1 := if f.deleteOk then deleteRequestNotif db uid nid else db
          let db2 := if f.updateOk then setUnavailable db1 aid now else db1
          let db3 := acceptPatientNotify f.insertOk db2 aid notification.message now
          ⟨db3, ⟨200, true, "Request accepted. Ambulance is now en route."⟩⟩

/-- Handler `accept_request` on the fault-free path. -/
def acceptRequest (db : DB) (uid : String) (nid : Nat) (now : Nat) : StepResult :=
  acceptRequestF noFaults db uid nid now

/-- Handler `reject_request` (ambulance.py, /requests/(id)/reject): select the
notification (404 when absent), delete it, and best-effort notify the patient
that the request was rejected.  The `ambulances` table is never touched. -/
def rejectRequest (db : DB) (uid : String) (nid : Nat) (now : Nat) : StepResult :=
  match selectRequestNotifs db uid nid with
  | [] => ⟨db, ⟨404, false, "Request not found"⟩⟩
  | notification :: _ =>
      let db1 := deleteRequestNotif db uid nid
      let db2 :=
        match extract_meta "meta_patient_user_id" notification.message with
        | none => db1
        | some pid =>
            insertNotif db1 pid "Ambulance Request Rejected"
              "Your ambulance request was rejected. Please try another ambulance." now
      ⟨db2, ⟨200, true, "Request rejected"⟩⟩

/-- Handler `complete_mission` (ambulance.py, /complete-mission): set the caller's
ambulance available and bump its timestamp; nothing else. -/
def complete_mission (db : DB) (uid : String) (now : Nat) : StepResult :=
  match get_ambulance_id db uid with
  | none => ⟨db, ⟨404, false, "Ambulance profile not found"⟩⟩
  | some aid =>
      let db1 := { db with ambulances := db.ambulances.map (fun a =>
        if a.ambulance_id == aid then { a with is_available := true, last_updated := now } else a) }
      ⟨db1, ⟨200, true, "Mission completed. Ambulance is now available."⟩⟩

/-- Handler `update_availability` (ambulance.py, /availability): set the caller's
availability flag; when turning available, additionally delete every
'Ambulance' notification addressed to the caller. -/
def update_availability (db : DB) (uid : String) (is_available : Bool) (now : Nat) : StepResult :=
  match get_ambulance_id db uid with
  | none => ⟨db, ⟨404, false, "Ambulance profile not found"⟩⟩
  | some aid =>
      let db1 := { db with ambulances := db.ambulances.map (fun a =>
        if a.ambulance_id == aid then { a with is_available := is_available, last_updated := now } else a) }
      let db2 :=
        if is_available then
          { db1 with notifications := db1.notifications.filter (fun n =>
              !(n.user_id == uid && n.type == "Ambulance")) }
        else db1
      ⟨db2, ⟨200, true, "Ambulance availability updated"⟩⟩

/-- Handler `request_ambulance` (patient.py, /ambulances/(id)/request): resolve the
caller's patient row (404); require the latitude/longitude keys to be present
(400) - the payload is read as a plain dict, so no range validation happens;
look up the ambulance (404); refuse with 400 when it is unavailable; read the
patient row back (404); insert the request notification for the ambulance's
operator and return 200.  The staff e-mail is fire-and-forget and external. -/
def request_ambulance (db : DB) (uid : String) (ambulance_id : Nat)
    (latitude longitude : Option ℚ) (now : Nat) : StepResult :=
  match get_patient_id db uid with
  | none => ⟨db, ⟨404, false, "Patient profile not found"⟩⟩
  | some patient_id =>
      match latitude, longitude with
      | some lat, some lon =>
          (match db.ambulances.filter (fun a => a.ambulance_id == ambulance_id) with
          | [] => ⟨db, ⟨404, false, "Ambulance not found"⟩⟩
          | ambulance :: _ =>
              if !ambulance.is_available then
                ⟨db, ⟨400, false, "Ambulance is not available"⟩⟩
              else
                match db.patients.filter (fun p => p.patient_id == patient_id) with
                | [] => ⟨db, ⟨404, false, "Patient not found"⟩⟩
                | patient :: _ =>
                    let msg :=
                      "Patient " ++ patient.full_name ++ " (" ++ patient.phone ++
                      ") requested an ambulance. Location: " ++ toString lat ++ ", " ++
                      toString lon ++
                      ". Directions: https://www.google.com/maps/dir/?api=1&destination=" ++
                      toString lat ++ "," ++ toString lon
                    let db1 := insertNotif db ambulance.user_id "Ambulance Request" msg now
                    ⟨db1, ⟨200, true, "Ambulance request sent successfully"⟩⟩)
      | _, _ => ⟨db, ⟨400, false, "Patient location is required"⟩⟩

/-- Python's `round` (banker's rounding, half to even) on an exact rational. -/
def pyRound (q : ℚ) : ℤ :=
  let f := ⌊q⌋
  let r := q - f
  if r < 1/2 then f
  else if 1/2 < r then f + 1
  else if f % 2 = 0 then f else f + 1

/-- Python `round(x, 2)` of the source, on exact rationals. -/
def round2 (q : ℚ) : ℚ := ((pyRound (q * 100) : ℤ) : ℚ) / 100

/-- Python `round(x, 0)` of the source, on exact rationals. -/
def round0 (q : ℚ) : ℚ := ((pyRound q : ℤ) : ℚ)

/-- Python truthiness of a nullable numeric column: `None`, `0` and `0.0` are
falsy, everything else truthy (the `if ambulance['current_latitude'] and
ambulance['current_longitude']` guard). -/
def truthyQ : Option ℚ → Bool
  | none => false
  | some x => !(x == 0)

/-- One element of the ranked result list: the ambulance row enriched with
the `distance_km` and `estimated_arrival` fields the handler adds. -/
structure NearbyEntry where
  ambulance : Ambulance
  distance_km : ℚ
  estimated_arrival : ℚ
deriving DecidableEq

/-- The sort key relation of `nearby_ambulances.sort(key=lambda x:
x['distance_km'])`. -/
def entryLE (x y : NearbyEntry) : Prop := x.distance_km ≤ y.distance_km

instance : DecidableRel entryLE := fun x y =>
  inferInstanceAs (Decidable (x.distance_km ≤ y.distance_km))

instance : IsTotal NearbyEntry entryLE := ⟨fun a b => le_total a.distance_km b.distance_km⟩

instance : IsTrans NearbyEntry entryLE := ⟨fun _ _ _ h h' => le_trans h h'⟩

/-- Pydantic validation of `NearbyAmbulanceRequest` (medical_models.py):
latitude in [-90,90], longitude in [-180,180], 0 < radius_km <= 100,
0 < limit <= 50.  A violation raises ValidationError, which the handler's
blanket `except` turns into a 500 response. -/
def validNearby (latitude longitude radius_km : ℚ) (limit : Nat) : Bool :=
  decide (-90 ≤ latitude) && decide (latitude ≤ 90) &&
  decide (-180 ≤ longitude) && decide (longitude ≤ 180) &&
  decide (0 < radius_km) && decide (radius_km ≤ 100) &&
  decide (0 < limit) && decide (limit ≤ 50)

/-- The candidate-building loop of `get_nearby_ambulances`: over the snapshot
of available ambulances, keep those whose coordinates are truthy and whose
distance is within the radius, attaching the rounded distance and the
fixed-speed ETA.  `dist` abstracts the haversine evaluation
`6371 * 2 * asin(sqrt(a))`, a real-valued formula in the source. -/
def nearbyCandidates (dist : ℚ → ℚ → ℚ → ℚ → ℚ) (db : DB)
    (latitude longitude radius_km : ℚ) : List NearbyEntry :=
  (db.ambulances.filter (fun a => a.is_available)).filterMap (fun a =>
    if truthyQ a.current_latitude && truthyQ a.current_longitude then
      let d := dist latitude longitude (a.current_latitude.getD 0) (a.current_longitude.getD 0)
      if d ≤ radius_km then
        some ⟨a, round2 d, round0 (d / 40 * 60)⟩
      else none
    else none)

/-- Status code plus ranked payload of the nearby endpoint. -/
structure NearbyResult where
  status : Nat
  data : List NearbyEntry
deriving DecidableEq

/-- Handler `get_nearby_ambulances` (patient.py, /ambulances/nearby): validate the
request, build the candidate list, sort it by the (rounded) `distance_km`
field - Python's `list.sort` is stable, which insertion sort by a total
preorder models exactly - and truncate to `limit` afterwards. -/
def get_nearby_ambulances (dist : ℚ → ℚ → ℚ → ℚ → ℚ) (db : DB)
    (latitude longitude radius_km : ℚ) (limit : Nat) : NearbyResult :=
  if validNearby latitude longitude radius_km limit then
    ⟨200, (List.insertionSort entryLE
        (nearbyCandidates dist db latitude longitude radius_km)).take limit⟩
  else ⟨500, []⟩

/-- Program counter of one in-flight `accept_request` call, for interleaving
two calls at the granularity of the individual storage operations the handler
performs (each Supabase call is one atomic HTTP round trip). -/
inductive ThreadState where
  | start : ThreadState
  | gotAmb : Nat → ThreadState
  | gotNotif : Nat → Notification → ThreadState
  | deleted : Nat → Notification → ThreadState
  | updated : Nat → Notification → ThreadState
  | finished : HttpResponse → ThreadState
deriving DecidableEq

/-- One storage operation of `accept_request`, against the shared store:
resolve the ambulance id, select the notification, delete it, mark the
ambulance unavailable, then notify the patient and respond.  The same helper
definitions as the sequential `acceptRequestF` are used, so the fault-free
sequential run is the uninterleaved execution of these five steps. -/
def acceptStep (uid : String) (nid : Nat) (now : Nat) (db : DB) :
    ThreadState → DB × ThreadState
  | .start =>
      match get_ambulance_id db uid with
      | none => (db, .finished ⟨404, false, "Ambulance profile not found"⟩)
      | some aid => (db, .gotAmb aid)
  | .gotAmb aid =>
      match selectRequestNotifs db uid nid with
      | [] => (db, .finished ⟨404, false, "Request not found"⟩)
      | n :: _ => (db, .gotNotif aid n)
  | .gotNotif aid n => (deleteRequestNotif db uid nid, .deleted aid n)
  | .deleted aid n => (setUnavailable db aid now, .updated aid n)
  | .updated aid n =>
      (acceptPatientNotify true db aid n.message now,
       .finished ⟨200, true, "Request accepted. Ambulance is now en route."⟩)
  | .finished r => (db, .finished r)

/-- Shared store plus the two thread states. -/
structure ConcState where
  db : DB
  t1 : ThreadState
  t2 : ThreadState
deriving DecidableEq

/-- Run two `accept_request` calls for the same caller and notification under
an explicit schedule: `true` advances the first call by one storage
operation, `false` the second. -/
def interleave (uid : String) (nid : Nat) (now : Nat) :
    List Bool → ConcState → ConcState
  | [], s => s
  | c :: cs, s =>
      if c then
        let r := acceptStep uid nid now s.db s.t1
        interleave uid nid now cs ⟨r.1, r.2, s.t2⟩
      else
        let r := acceptStep uid nid now s.db s.t2
        interleave uid nid now cs ⟨r.1, s.t1, r.2⟩

/-!
## Supporting lemmas

Frame facts about the storage helpers, and the key emptiness fact: a
notification select issued after the corresponding delete finds nothing
(provided inserted rows get fresh serial ids).
-/

theorem selectRequestNotifs_deleteRequestNotif (db : DB) (uid : String) (nid : Nat) :
    selectRequestNotifs (deleteRequestNotif db uid nid) uid nid = [] := by
  simp only [selectRequestNotifs, deleteRequestNotif]
  rw [List.filter_filter]
  simp

theorem selectRequestNotifs_setUnavailable (db : DB) (aid now : Nat) (uid : String) (nid : Nat) :
    selectRequestNotifs (setUnavailable db aid now) uid nid = selectRequestNotifs db uid nid := rfl

theorem selectRequestNotifs_insertNotif (db : DB) (pid t m : String) (now : Nat)
    (uid : String) (nid : Nat) (h : nid ≠ db.next_notification_id) :
    selectRequestNotifs (insertNotif db pid t m now) uid nid = selectRequestNotifs db uid nid := by
  simp only [selectRequestNotifs, insertNotif, List.filter_append]
  have hb : (db.next_notification_id == nid) = false := beq_eq_false_iff_ne.mpr (Ne.symm h)
  have hk : notifKey uid nid ⟨db.next_notification_id, pid, t, m, "Ambulance", false, now⟩ = false := by
    simp [notifKey, hb]
  simp [hk]

theorem deleteRequestNotif_ambulances (db : DB) (uid : String) (nid : Nat) :
    (deleteRequestNotif db uid nid).ambulances = db.ambulances := rfl

theorem deleteRequestNotif_nextId (db : DB) (uid : String) (nid : Nat) :
    (deleteRequestNotif db uid nid).next_notification_id = db.next_notification_id := rfl

theorem setUnavailable_nextId (db : DB) (aid now : Nat) :
    (setUnavailable db aid now).next_notification_id = db.next_notification_id := rfl

theorem setUnavailable_notifications (db : DB) (aid now : Nat) :
    (setUnavailable db aid now).notifications = db.notifications := rfl

theorem insertNotif_ambulances (db : DB) (pid t m : String) (now : Nat) :
    (insertNotif db pid t m now).ambulances = db.ambulances := rfl

theorem acceptPatientNotify_ambulances (ok : Bool) (db : DB) (aid : Nat) (msg : String) (now : Nat) :
    (acceptPatientNotify ok db aid msg now).ambulances = db.ambulances := by
  unfold acceptPatientNotify
  cases extract_meta "meta_patient_user_id" msg with
  | none => rfl
  | some pid => cases ok with
    | false => rfl
    | true => rfl

theorem selectRequestNotifs_acceptPatientNotify (ok : Bool) (db : DB) (aid : Nat)
    (msg : String) (now : Nat) (uid : String) (nid : Nat) (h : nid ≠ db.next_notification_id) :
    selectRequestNotifs (acceptPatientNotify ok db aid msg now) uid nid =
      selectRequestNotifs db uid nid := by
  unfold acceptPatientNotify
  cases extract_meta "meta_patient_user_id" msg with
  | none => rfl
  | some pid => cases ok with
    | false => rfl
    | true => apply selectRequestNotifs_insertNotif _ _ _ _ _ _ _ h

/-- The accept/reject handlers answer 404 whenever the notification select
comes back empty, whatever the ambulance lookup yields. -/
theorem accept_404_of_select_nil (db : DB) (uid : String) (nid now : Nat)
    (h : selectRequestNotifs db uid nid = []) :
    (acceptRequestF noFaults db uid nid now).response.status = 404 := by
  cases hg : get_ambulance_id db uid <;> simp [acceptRequestF, hg, h]

theorem reject_404_of_select_nil (db : DB) (uid : String) (nid now : Nat)
    (h : selectRequestNotifs db uid nid = []) :
    (rejectRequest db uid nid now).response.status = 404 := by
  simp [rejectRequest, h]

/-!
## Fixtures

Concrete store contents used by the counterexamples and witnesses.
-/

/-- An available ambulance operated by user `amb1`. -/
def ambA : Ambulance := ⟨1, "amb1", "AMB-1", "Dan", "0775", none, none, true, 0⟩

/-- A pending dispatch-request notification addressed to operator `amb1`,
with the message text `request_ambulance` produces. -/
def reqN : Notification :=
  ⟨7, "amb1", "Ambulance Request",
   "Patient Jo (07) requested an ambulance. Location: 7, 80. Directions: https://www.google.com/maps/dir/?api=1&destination=7,80",
   "Ambulance", false, 0⟩

/-- Store with one available ambulance and one pending request against it. -/
def dbAcc : DB := ⟨[ambA], [], [reqN], 8⟩

/-- The success response of `accept_request`. -/
def okResp : HttpResponse := ⟨200, true, "Request accepted. Ambulance is now en route."⟩

/-- A schedule interleaving the storage operations of two accept calls so
that both notification selects run before either delete. -/
def raceSched : List Bool :=
  [true, false, true, false, true, true, true, false, false, false]

/-!
## Claims
-/

/-- C1, counterexample: two `accept_request` calls on the same pending
request, interleaved at storage-operation granularity so that both selects
precede either delete, BOTH report success; neither observes Conflict (409).
The transition is a read-then-delete-then-update sequence, not a conditional
(compare-and-swap) update, so the claimed mutual exclusion fails. -/
theorem accept_race_both_succeed :
    (interleave "amb1" 7 9 raceSched ⟨dbAcc, .start, .start⟩).t1 = .finished okResp ∧
    (interleave "amb1" 7 9 raceSched ⟨dbAcc, .start, .start⟩).t2 = .finished okResp ∧
    okResp.status ≠ 409 := by decide

/-- C1 (amended): `accept_request` is a read-then-write sequence (select the
notification, delete it, write availability), not a single conditional
update; under the interleaving in which both calls read before either
deletes, both calls succeed, the availability flag is written false by each
(ending false), and the request notification ends up consumed. -/
theorem accept_race_amended :
    (interleave "amb1" 7 9 raceSched ⟨dbAcc, .start, .start⟩).t1 = .finished okResp ∧
    (interleave "amb1" 7 9 raceSched ⟨dbAcc, .start, .start⟩).t2 = .finished okResp ∧
    (interleave "amb1" 7 9 raceSched ⟨dbAcc, .start, .start⟩).db.ambulances.map
      (fun a => a.is_available) = [false] ∧
    (interleave "amb1" 7 9 raceSched ⟨dbAcc, .start, .start⟩).db.notifications = [] := by
  decide

/-- C2, counterexample: after a successful accept of request 7, a second
accept and a decline both answer 404 "Request not found" (the notification
row is gone), not Conflict (409) as claimed. -/
theorem accept_then_accept_404 :
    (acceptRequest dbAcc "amb1" 7 1).response.status = 200 ∧
    (acceptRequest (acceptRequest dbAcc "amb1" 7 1).db "amb1" 7 2).response =
      ⟨404, false, "Request not found"⟩ ∧
    (rejectRequest (acceptRequest dbAcc "amb1" 7 1).db "amb1" 7 2).response =
      ⟨404, false, "Request not found"⟩ ∧
    (acceptRequest (acceptRequest dbAcc "amb1" 7 1).db "amb1" 7 2).response.status ≠ 409 := by
  decide

/-- C2 (amended): once an accept of request `nid` has succeeded, any
subsequent accept or decline of `nid` fails with 404 NotFound - the
notification row was deleted, and there is no status field to find
non-Pending - provided inserted notifications receive fresh serial ids. -/
theorem accept_resolved_then_404 (db : DB) (uid : String) (nid now now' : Nat)
    (hfresh : nid < db.next_notification_id)
    (hs : (acceptRequest db uid nid now).response.success = true) :
    (acceptRequest (acceptRequest db uid nid now).db uid nid now').response.status = 404 ∧
    (rejectRequest (acceptRequest db uid nid now).db uid nid now').response.status = 404 := by
  cases hg : get_ambulance_id db uid with
  | none => simp [acceptRequest, acceptRequestF, hg] at hs
  | some aid =>
      cases hsel : selectRequestNotifs db uid nid with
      | nil => simp [acceptRequest, acceptRequestF, hg, hsel] at hs
      | cons n rest =>
          have hne : nid ≠ db.next_notification_id := Nat.ne_of_lt hfresh
          have hdb : (acceptRequest db uid nid now).db =
              acceptPatientNotify true (setUnavailable (deleteRequestNotif db uid nid) aid now)
                aid n.message now := by
            simp [acceptRequest, acceptRequestF, hg, hsel, noFaults]
          have hsel2 : selectRequestNotifs (acceptRequest db uid nid now).db uid nid = [] := by
            rw [hdb,
              selectRequestNotifs_acceptPatientNotify _ _ _ _ _ _ _
                (by rw [setUnavailable_nextId, deleteRequestNotif_nextId]; exact hne),
              selectRequestNotifs_setUnavailable, selectRequestNotifs_deleteRequestNotif]
          exact ⟨accept_404_of_select_nil _ _ _ _ hsel2, reject_404_of_select_nil _ _ _ _ hsel2⟩

/-- C2 witness: the amended theorem applied to the concrete store. -/
theorem accept_resolved_then_404_w :
    (acceptRequest (acceptRequest dbAcc "amb1" 7 1).db "amb1" 7 2).response.status = 404 ∧
    (rejectRequest (acceptRequest dbAcc "amb1" 7 1).db "amb1" 7 2).response.status = 404 :=
  accept_resolved_then_404 dbAcc "amb1" 7 1 2 (by decide) (by decide)

/-- C9, counterexample: run accept with the availability update failing (its
result is ignored in the source).  The handler still reports success, the
request notification is already deleted (consumed), and the ambulance is
still available: state is left partially mutated on this failure path. -/
theorem accept_partial_on_update_failure :
    (acceptRequestF ⟨true, false, true⟩ dbAcc "amb1" 7 1).response.status = 200 ∧
    (acceptRequestF ⟨true, false, true⟩ dbAcc "amb1" 7 1).db.notifications = [] ∧
    (acceptRequestF ⟨true, false, true⟩ dbAcc "amb1" 7 1).db.ambulances.map
      (fun a => a.is_available) = [true] := by decide

/-- C9 (amended): accept is a multi-step sequence of independent writes whose
results are ignored; when the availability write fails after the delete, the
handler still answers 200, the ambulance rows are unchanged, and the request
notification has been consumed (a later select finds nothing). -/
theorem accept_update_failure_amended (db : DB) (uid : String) (nid now aid : Nat)
    (n : Notification) (rest : List Notification)
    (hg : get_ambulance_id db uid = some aid)
    (hsel : selectRequestNotifs db uid nid = n :: rest)
    (hfresh : nid < db.next_notification_id) :
    (acceptRequestF ⟨true, false, true⟩ db uid nid now).response.status = 200 ∧
    (acceptRequestF ⟨true, false, true⟩ db uid nid now).db.ambulances = db.ambulances ∧
    selectRequestNotifs (acceptRequestF ⟨true, false, true⟩ db uid nid now).db uid nid = [] := by
  have hne : nid ≠ db.next_notification_id := Nat.ne_of_lt hfresh
  have hdb : (acceptRequestF ⟨true, false, true⟩ db uid nid now).db =
      acceptPatientNotify true (deleteRequestNotif db uid nid) aid n.message now := by
    simp [acceptRequestF, hg, hsel]
  refine ⟨by simp [acceptRequestF, hg, hsel], ?_, ?_⟩
  · rw [hdb, acceptPatientNotify_ambulances, deleteRequestNotif_ambulances]
  · rw [hdb,
      selectRequestNotifs_acceptPatientNotify _ _ _ _ _ _ _
        (by rw [deleteRequestNotif_nextId]; exact hne),
      selectRequestNotifs_deleteRequestNotif]

/-- C9 witness: the amended theorem applied to the concrete store. -/
theorem accept_update_failure_amended_w :
    (acceptRequestF ⟨true, false, true⟩ dbAcc "amb1" 7 1).response.status = 200 ∧
    (acceptRequestF ⟨true, false, true⟩ dbAcc "amb1" 7 1).db.ambulances = dbAcc.ambulances ∧
    selectRequestNotifs (acceptRequestF ⟨true, false, true⟩ dbAcc "amb1" 7 1).db "amb1" 7 = [] :=
  accept_update_failure_amended dbAcc "amb1" 7 1 1 reqN [] (by decide) (by decide) (by decide)

/-- C6, counterexample: a successful decline deletes the notification row
outright - afterwards no record of request 7 exists at all, so in particular
none whose status is Rejected (the store has no status column). -/
theorem reject_deletes_request :
    (rejectRequest dbAcc "amb1" 7 1).response.status = 200 ∧
    (rejectRequest dbAcc "amb1" 7 1).db.notifications.filter
      (fun n => n.notification_id == 7) = [] := by decide

/-- C6 (amended): decline never touches the `ambulances` table (so the
target ambulance's availability and every other field are unchanged), and on
success the pending request notification is removed rather than marked
Rejected, given fresh serial ids for inserts. -/
theorem reject_frame_amended (db : DB) (uid : String) (nid now : Nat)
    (hfresh : nid < db.next_notification_id) :
    (rejectRequest db uid nid now).db.ambulances = db.ambulances ∧
    ((rejectRequest db uid nid now).response.success = true →
      selectRequestNotifs (rejectRequest db uid nid now).db uid nid = []) := by
  cases hsel : selectRequestNotifs db uid nid with
  | nil =>
      refine ⟨by simp [rejectRequest, hsel], fun h => ?_⟩
      simp [rejectRequest, hsel] at h
  | cons n rest =>
      have hne : nid ≠ db.next_notification_id := Nat.ne_of_lt hfresh
      cases hm : extract_meta "meta_patient_user_id" n.message with
      | none =>
          have hdb : (rejectRequest db uid nid now).db = deleteRequestNotif db uid nid := by
            simp [rejectRequest, hsel, hm]
          refine ⟨by rw [hdb, deleteRequestNotif_ambulances], fun _ => ?_⟩
          rw [hdb, selectRequestNotifs_deleteRequestNotif]
      | some pid =>
          have hdb : (rejectRequest db uid nid now).db =
              insertNotif (deleteRequestNotif db uid nid) pid "Ambulance Request Rejected"
                "Your ambulance request was rejected. Please try another ambulance." now := by
            simp [rejectRequest, hsel, hm]
          refine ⟨by rw [hdb, insertNotif_ambulances, deleteRequestNotif_ambulances], fun _ => ?_⟩
          rw [hdb,
            selectRequestNotifs_insertNotif _ _ _ _ _ _ _
              (by rw [deleteRequestNotif_nextId]; exact hne),
            selectRequestNotifs_deleteRequestNotif]

/-- C6 witness: the amended theorem applied to the concrete store. -/
theorem reject_frame_amended_w :
    (rejectRequest dbAcc "amb1" 7 1).db.ambulances = dbAcc.ambulances ∧
    ((rejectRequest dbAcc "amb1" 7 1).response.success = true →
      selectRequestNotifs (rejectRequest dbAcc "amb1" 7 1).db "amb1" 7 = []) :=
  reject_frame_amended dbAcc "amb1" 7 1 (by decide)

/-- A registered patient with user id `patu`. -/
def patJo : Patient := ⟨1, "patu", "Jo", "07"⟩

/-- An available ambulance (id 2) operated by user `ambu`. -/
def ambFree : Ambulance := ⟨2, "ambu", "AMB-2", "Dan", "0775", some 7, some 80, true, 0⟩

/-- The same ambulance with its availability flag false. -/
def ambBusy : Ambulance := ⟨2, "ambu", "AMB-2", "Dan", "0775", some 7, some 80, false, 0⟩

/-- Store for the createRequest scenarios: one patient, one free ambulance. -/
def dbReq : DB := ⟨[ambFree], [patJo], [], 10⟩

/-- Store for the createRequest scenarios: one patient, one busy ambulance. -/
def dbBusy : DB := ⟨[ambBusy], [patJo], [], 10⟩

/-- C3, counterexample: requesting a busy ambulance answers 400 Bad Request,
not the claimed 409 Conflict, and a successful request answers 200, not the
claimed 201. -/
theorem request_unavailable_400_not_409 :
    (request_ambulance dbBusy "patu" 2 (some 7) (some 80) 3).response =
      ⟨400, false, "Ambulance is not available"⟩ ∧
    (request_ambulance dbBusy "patu" 2 (some 7) (some 80) 3).response.status ≠ 409 ∧
    (request_ambulance dbReq "patu" 2 (some 7) (some 80) 3).response.status = 200 ∧
    (request_ambulance dbReq "patu" 2 (some 7) (some 80) 3).response.status ≠ 201 := by
  decide

/-- C3 (amended): with the caller's patient profile and the target ambulance
resolved, createRequest answers 400 (leaving the store unchanged) when the
ambulance's availability flag is false, and 200 with one notification row
inserted when it is true; it never answers 409 or 201. -/
theorem request_ambulance_status_amended (db : DB) (uid : String) (aid : Nat) (la lo : ℚ)
    (now pid : Nat) (a : Ambulance) (rest : List Ambulance) (p : Patient) (ps : List Patient)
    (hp : get_patient_id db uid = some pid)
    (ha : db.ambulances.filter (fun x => x.ambulance_id == aid) = a :: rest)
    (hpat : db.patients.filter (fun x => x.patient_id == pid) = p :: ps) :
    (request_ambulance db uid aid (some la) (some lo) now).response.status =
      (if a.is_available then 200 else 400) ∧
    (request_ambulance db uid aid (some la) (some lo) now).db.notifications.length =
      db.notifications.length + (if a.is_available then 1 else 0) ∧
    (request_ambulance db uid aid (some la) (some lo) now).response.status ≠ 409 ∧
    (request_ambulance db uid aid (some la) (some lo) now).response.status ≠ 201 := by
  cases hav : a.is_available <;>
    simp [request_ambulance, hp, ha, hav, hpat, insertNotif]

/-- C3 witness: the amended theorem applied to the busy-ambulance store. -/
theorem request_ambulance_status_amended_w :
    (request_ambulance dbBusy "patu" 2 (some 7) (some 80) 3).response.status =
      (if ambBusy.is_available then 200 else 400) ∧
    (request_ambulance dbBusy "patu" 2 (some 7) (some 80) 3).db.notifications.length =
      dbBusy.notifications.length + (if ambBusy.is_available then 1 else 0) ∧
    (request_ambulance dbBusy "patu" 2 (some 7) (some 80) 3).response.status ≠ 409 ∧
    (request_ambulance dbBusy "patu" 2 (some 7) (some 80) 3).response.status ≠ 201 :=
  request_ambulance_status_amended dbBusy "patu" 2 7 80 3 1 ambBusy [] patJo []
    (by decide) (by decide) (by decide)

/-- C4, counterexample: createRequest accepts a latitude of 999 (far outside
[-90, 90]): the call succeeds with 200 and the request notification is
written, so no ValidationError occurs and a write is performed. -/
theorem request_out_of_range_succeeds :
    (request_ambulance dbReq "patu" 2 (some 999) (some 80) 3).response.status = 200 ∧
    (request_ambulance dbReq "patu" 2 (some 999) (some 80) 3).db.notifications.length = 1 := by
  decide

/-- C4 (amended): createRequest checks only that the latitude/longitude keys
are present (400 with no writes when either is missing); it performs no range
validation - arbitrary coordinate values, in range or not, are accepted and
the request is created.  Range validation exists only on the nearby
endpoint's `NearbyAmbulanceRequest` model. -/
theorem request_ambulance_presence_only (db : DB) (uid : String) (aid : Nat) (la lo : ℚ)
    (now pid : Nat) (a : Ambulance) (rest : List Ambulance) (p : Patient) (ps : List Patient)
    (hp : get_patient_id db uid = some pid)
    (ha : db.ambulances.filter (fun x => x.ambulance_id == aid) = a :: rest)
    (hav : a.is_available = true)
    (hpat : db.patients.filter (fun x => x.patient_id == pid) = p :: ps) :
    request_ambulance db uid aid none (some lo) now =
      ⟨db, ⟨400, false, "Patient location is required"⟩⟩ ∧
    request_ambulance db uid aid (some la) none now =
      ⟨db, ⟨400, false, "Patient location is required"⟩⟩ ∧
    request_ambulance db uid aid none none now =
      ⟨db, ⟨400, false, "Patient location is required"⟩⟩ ∧
    (request_ambulance db uid aid (some la) (some lo) now).response.status = 200 ∧
    (request_ambulance db uid aid (some la) (some lo) now).db.notifications.length =
      db.notifications.length + 1 := by
  refine ⟨?_, ?_, ?_, ?_⟩
  · simp [request_ambulance, hp]
  · simp [request_ambulance, hp]
  · simp [request_ambulance, hp]
  · constructor <;> simp [request_ambulance, hp, ha, hav, hpat, insertNotif]

/-- C4 witness: the amended theorem applied at the (out-of-range)
latitude 999. -/
theorem request_ambulance_presence_only_w :
    request_ambulance dbReq "patu" 2 none (some 80) 3 =
      ⟨dbReq, ⟨400, false, "Patient location is required"⟩⟩ ∧
    request_ambulance dbReq "patu" 2 (some 999) none 3 =
      ⟨dbReq, ⟨400, false, "Patient location is required"⟩⟩ ∧
    request_ambulance dbReq "patu" 2 none none 3 =
      ⟨dbReq, ⟨400, false, "Patient location is required"⟩⟩ ∧
    (request_ambulance dbReq "patu" 2 (some 999) (some 80) 3).response.status = 200 ∧
    (request_ambulance dbReq "patu" 2 (some 999) (some 80) 3).db.notifications.length =
      dbReq.notifications.length + 1 :=
  request_ambulance_presence_only dbReq "patu" 2 999 80 3 1 ambFree [] patJo []
    (by decide) (by decide) (by decide) (by decide)

/-- A busy ambulance operated by `amb1`, for the complete-mission scenario. -/
def ambBusy1 : Ambulance := ⟨1, "amb1", "AMB-1", "Dan", "0775", none, none, false, 0⟩

/-- Store with a busy ambulance that still has a pending request addressed
to it. -/
def dbMiss : DB := ⟨[ambBusy1], [], [reqN], 8⟩

/-- C5, counterexample: complete-mission sets the ambulance available but
leaves the pending request notification in place - nothing is discarded,
contrary to the claimed delete side effect. -/
theorem complete_mission_keeps_pending :
    (complete_mission dbMiss "amb1" 9).response.status = 200 ∧
    (complete_mission dbMiss "amb1" 9).db.ambulances.map (fun a => a.is_available) = [true] ∧
    (complete_mission dbMiss "amb1" 9).db.notifications = [reqN] := by decide

/-- Turning an ambulance available through the manual toggle filters out the
caller's pending 'Ambulance' notifications. -/
theorem update_availability_true_notifications (db : DB) (uid : String) (now aid : Nat)
    (hg : get_ambulance_id db uid = some aid) :
    (update_availability db uid true now).db.notifications =
      db.notifications.filter (fun n => !(n.user_id == uid && n.type == "Ambulance")) := by
  unfold update_availability
  rw [hg]
  rfl

/-- C5 (amended): complete-mission sets the caller's ambulance available
regardless of prior state and leaves the notifications table untouched; the
discard of pending 'Ambulance' notifications happens only in the manual
availability toggle when switching to available. -/
theorem complete_mission_amended (db : DB) (uid : String) (now aid : Nat)
    (hg : get_ambulance_id db uid = some aid) :
    (complete_mission db uid now).db.notifications = db.notifications ∧
    (complete_mission db uid now).response.status = 200 ∧
    ((complete_mission db uid now).db.ambulances.filter
      (fun a => a.ambulance_id == aid)).all (fun a => a.is_available) = true ∧
    (update_availability db uid true now).db.notifications.filter
      (fun n => n.user_id == uid && n.type == "Ambulance") = [] := by
  refine ⟨by simp [complete_mission, hg], by simp [complete_mission, hg], ?_, ?_⟩
  · simp only [complete_mission, hg]
    rw [List.all_eq_true]
    intro x hx
    rw [List.mem_filter] at hx
    obtain ⟨hmem, hid⟩ := hx
    rw [List.mem_map] at hmem
    obtain ⟨b, _, rfl⟩ := hmem
    cases hcb : (b.ambulance_id == aid) with
    | true => simp [hcb]
    | false => rw [hcb] at hid; simp [hcb] at hid
  · rw [update_availability_true_notifications db uid now aid hg, List.filter_filter]
    simp

/-- C5 witness: the amended theorem applied to the concrete store with a
busy ambulance and a pending request. -/
theorem complete_mission_amended_w :
    (complete_mission dbMiss "amb1" 9).db.notifications = dbMiss.notifications ∧
    (complete_mission dbMiss "amb1" 9).response.status = 200 ∧
    ((complete_mission dbMiss "amb1" 9).db.ambulances.filter
      (fun a => a.ambulance_id == 1)).all (fun a => a.is_available) = true ∧
    (update_availability dbMiss "amb1" true 9).db.notifications.filter
      (fun n => n.user_id == "amb1" && n.type == "Ambulance") = [] :=
  complete_mission_amended dbMiss "amb1" 9 1 (by decide)

/-- A distance function that is identically zero; it agrees with the
haversine formula whenever the origin and the ambulance coincide. -/
def distZero : ℚ → ℚ → ℚ → ℚ → ℚ := fun _ _ _ _ => 0

/-- Two available ambulances at the same point; the one with the larger id
comes first in the Directory snapshot. -/
def ambT2 : Ambulance := ⟨2, "u2", "A2", "D2", "p2", some 5, some 5, true, 0⟩

def ambT1 : Ambulance := ⟨1, "u1", "A1", "D1", "p1", some 5, some 5, true, 0⟩

def dbTie : DB := ⟨[ambT2, ambT1], [], [], 0⟩

/-- C7, counterexample: with two candidates at exactly the same distance
(both coincide with the origin, distance 0), the result keeps the snapshot
order [2, 1]; the claimed ascending-identifier tie-break would require
[1, 2].  The sort key is `distance_km` alone and Python's sort is stable. -/
theorem nearby_tie_not_by_id :
    (get_nearby_ambulances distZero dbTie 5 5 10 10).data.map
      (fun e => e.ambulance.ambulance_id) = [2, 1] := by decide

/-- C7 (amended): findNearby's output is sorted by non-decreasing
`distance_km` (ties keep the Directory snapshot order, since the stable sort
uses the distance alone as key), contains at most `limit` entries, and is a
prefix of the full ranking - truncation happens only after ranking. -/
theorem nearby_sorted_amended (dist : ℚ → ℚ → ℚ → ℚ → ℚ) (db : DB)
    (la lo rk : ℚ) (lim : Nat) :
    List.Sorted entryLE (get_nearby_ambulances dist db la lo rk lim).data ∧
    (get_nearby_ambulances dist db la lo rk lim).data.length ≤ lim ∧
    List.IsPrefix (get_nearby_ambulances dist db la lo rk lim).data
      (List.insertionSort entryLE (nearbyCandidates dist db la lo rk)) := by
  unfold get_nearby_ambulances
  split
  · refine ⟨?_, ?_, ?_⟩
    · exact (List.sorted_insertionSort entryLE
        (nearbyCandidates dist db la lo rk)).sublist
        (List.take_sublist lim _)
    · simp [List.length_take]
    · exact ⟨(List.insertionSort entryLE (nearbyCandidates dist db la lo rk)).drop lim,
        List.take_append_drop lim _⟩
  · exact ⟨List.sorted_nil, Nat.zero_le lim,
      ⟨List.insertionSort entryLE (nearbyCandidates dist db la lo rk), rfl⟩⟩

/-- Every entry the nearby endpoint returns passed the truthiness guard on
both coordinates. -/
theorem mem_nearby_data_truthy (dist : ℚ → ℚ → ℚ → ℚ → ℚ) (db : DB)
    (la lo rk : ℚ) (lim : Nat) :
    ∀ e ∈ (get_nearby_ambulances dist db la lo rk lim).data,
      truthyQ e.ambulance.current_latitude = true ∧
      truthyQ e.ambulance.current_longitude = true := by
  intro e he
  unfold get_nearby_ambulances at he
  split at he
  · have h1 : e ∈ List.insertionSort entryLE (nearbyCandidates dist db la lo rk) :=
      List.mem_of_mem_take he
    have h2 : e ∈ nearbyCandidates dist db la lo rk :=
      (List.mem_insertionSort entryLE).mp h1
    unfold nearbyCandidates at h2
    rw [List.mem_filterMap] at h2
    obtain ⟨a, _, hfa⟩ := h2
    split at hfa
    case isTrue htr =>
      simp only [] at hfa
      split at hfa
      case isTrue =>
        rw [Option.some_inj] at hfa
        rw [← hfa]
        rw [Bool.and_eq_true] at htr
        exact htr
      case isFalse => exact absurd hfa (by simp)
    case isFalse => exact absurd hfa (by simp)
  · exact absurd he (by simp)

/-- C10: an available ambulance whose reported latitude or longitude is null
or exactly 0 never appears in the nearby results, whatever the origin,
radius, limit and distance function: the guard tests numeric truthiness, and
`None`, `0` and `0.0` are all falsy in Python. -/
theorem nearby_excludes_zero_or_null (dist : ℚ → ℚ → ℚ → ℚ → ℚ) (db : DB)
    (la lo rk : ℚ) (lim : Nat) (a : Ambulance)
    (hz : a.current_latitude = none ∨ a.current_latitude = some 0 ∨
          a.current_longitude = none ∨ a.current_longitude = some 0) :
    a ∉ (get_nearby_ambulances dist db la lo rk lim).data.map (fun e => e.ambulance) := by
  intro hmem
  rw [List.mem_map] at hmem
  obtain ⟨e, he, heq⟩ := hmem
  obtain ⟨h1, h2⟩ := mem_nearby_data_truthy dist db la lo rk lim e he
  rw [heq] at h1 h2
  rcases hz with h | h | h | h
  · rw [h] at h1; simp [truthyQ] at h1
  · rw [h] at h1; simp [truthyQ] at h1
  · rw [h] at h2; simp [truthyQ] at h2
  · rw [h] at h2; simp [truthyQ] at h2

/-- An ambulance whose reported latitude is exactly 0. -/
def ambZ : Ambulance := ⟨3, "u3", "A3", "D3", "p3", some 0, some 5, true, 0⟩

def dbZ : DB := ⟨[ambZ, ambT2], [], [], 0⟩

/-- C10 witness: the zero-latitude ambulance is excluded on a concrete
store where another candidate does qualify. -/
theorem nearby_excludes_zero_or_null_w :
    ambZ ∉ (get_nearby_ambulances distZero dbZ 5 5 10 10).data.map (fun e => e.ambulance) :=
  nearby_excludes_zero_or_null distZero dbZ 5 5 10 10 ambZ (Or.inr (Or.inl rfl))

/-- C8: a request created by `request_ambulance` embeds the patient's
identity only as human-readable text, never as the `meta_patient_user_id=`
token that `accept_request` scrapes with its regex; accepting such a request
therefore succeeds (200) but inserts NO notification for the patient at all
(the store's notification table ends empty: the request row was deleted and
nothing was written), so the patient never receives the driver's name/phone
or a directions link. -/
theorem accept_never_notifies_patient :
    (request_ambulance dbReq "patu" 2 (some 7) (some 80) 3).response.status = 200 ∧
    extract_meta "meta_patient_user_id"
      ((request_ambulance dbReq "patu" 2 (some 7) (some 80) 3).db.notifications.map
        (fun n => n.message)).headI = none ∧
    (acceptRequest (request_ambulance dbReq "patu" 2 (some 7) (some 80) 3).db
      "ambu" 10 4).response.status = 200 ∧
    (acceptRequest (request_ambulance dbReq "patu" 2 (some 7) (some 80) 3).db
      "ambu" 10 4).db.notifications = [] := by decide

end HealHub
